import Mathlib

/-!
# Verification of `dmmp.py` (python-dmmp)

Shallow embedding of `src/dmmp.py`, a client library that queries the
multipathd daemon over an abstract Unix socket with a length-prefixed
framing scheme and builds an MPath → PathGroup → Path object graph from
the JSON response.

Modelling conventions:

* The platform is the reference one of the source (64-bit little-endian
  Linux): `_IPC_LEN_SIZE = ctypes.sizeof(ctypes.c_ssize_t(0)) = 8` and
  `sys.byteorder == "little"`.
* Bytes are `Nat` below 256; byte strings are `List Nat`.
* `struct.pack("n", v)` succeeds exactly for `-2^63 ≤ v < 2^63` and yields
  the 8 little-endian two's-complement bytes; `struct.unpack("n", b)`
  succeeds exactly when `b` has 8 bytes.  When they raise `struct.error`,
  the source falls back to a hex-codec path (`"%x" % v`, `zfill`,
  `decode("hex")`/`encode("hex")`, reversal on little-endian); the
  fallback is embedded as written, with the hex codec given its Python 2
  meaning (the codec is Python-2-only; the module itself is of Python 2
  vintage: its module-level `_add_reverse_mapping` mutates a dict while
  iterating `d.items()`, which Python 3 rejects).  Text handling
  (`len(cmd)`, `bytearray(cmd, "utf-8")`) is embedded with its textual
  meaning: `len` counts characters, encoding produces UTF-8 bytes.
* Python exceptions become an explicit `Err` error type; a function that
  can raise returns `Except Err _`.
* `json.loads` is an external collaborator (the spec scopes JSON parsing
  out as a black-box decode-to-tree primitive): the post-parse pipeline
  is parameterised by a `loads : String → Except Err Json` oracle.
* The socket is modelled by a `SocketEnv` describing what `connect`,
  `sendall` and each successive `recv` call do; `recv n` returns at most
  `n` bytes of the chunk the peer delivers for that call, and an empty
  chunk means the peer closed.
* `mpaths_get` is a generator in the source; it is embedded as the
  eagerly materialised list of yielded values together with a `Bool`
  recording whether `s.close()` ran before control returned (the spec's
  design notes allow the eager-list view of the lazy sequence).
-/

namespace Dmmp

/-- Python exceptions that the embedded code can raise. -/
inductive Err where
  /-- `KeyError` from a `d[k]` lookup with a missing key. -/
  | keyError (k : String)
  /-- `TypeError` (non-dict indexing, unhashable key, non-list iteration). -/
  | typeError
  /-- `ValueError`, e.g. `int("", 16)` in the decode fallback. -/
  | valueError
  /-- `UnicodeDecodeError` from `.decode("utf-8")`. -/
  | unicodeDecodeError
  /-- `json.loads` failure on malformed JSON text. -/
  | jsonDecodeError
  /-- The `raise exception("incorrect version")` on the version check
  (the identifier `exception` is undefined in the source, so CPython
  actually raises `NameError` there; it is the unique error of that
  program point either way). -/
  | versionMismatch
  /-- Socket-level failure (connect/send/recv raising `socket.error`). -/
  | connectionError
  /-- `socket.timeout` from the 60-second socket timeout. -/
  | timeoutError
deriving DecidableEq

/-! ## Transport framing (`_IPC_LEN_SIZE`, `_len_to_ssize_t_bytes`, `_bytes_to_len`) -/

/-- `_IPC_LEN_SIZE = ctypes.sizeof(ctypes.c_ssize_t(0))`: 8 on the 64-bit
reference platform. -/
def IPC_LEN_SIZE : Nat := 8

/-- Little-endian base-256 digits of `n`, `w` bytes wide (the layout of
`struct.pack("n", ·)` for non-negative values on the reference platform). -/
def leBytes : Nat → Nat → List Nat
  | 0, _ => []
  | w + 1, n => n % 256 :: leBytes w (n / 256)

/-- Value of a little-endian base-256 byte string. -/
def leValue : List Nat → Nat
  | [] => 0
  | b :: bs => b + 256 * leValue bs

/-- Big-endian byte string, as produced by `("%x" % n)` + `zfill` +
`.decode("hex")` in the source's encode fallback. -/
def beBytes (w n : Nat) : List Nat := (leBytes w n).reverse

/-- Number of hex digits of `"%x" % n` (one digit for 0). -/
def hexDigits (n : Nat) : Nat :=
  if n < 16 then 1 else hexDigits (n / 16) + 1

/-- `_len_to_ssize_t_bytes` (dmmp.py lines 34–42): `struct.pack("n", v)`
when it succeeds (`v < 2^63`; the argument is always a non-negative
length), otherwise the hex fallback: hex-encode, pad to an even number of
digits, `zfill` to 16, decode to (big-endian) bytes, and reverse on the
little-endian platform. -/
def len_to_ssize_t_bytes (v : Nat) : List Nat :=
  if v < 2 ^ 63 then
    leBytes IPC_LEN_SIZE v
  else
    let h := hexDigits v
    let padded := max (IPC_LEN_SIZE * 2) (h + h % 2)
    (beBytes (padded / 2) v).reverse

/-- Signed reading of an 8-byte native value, as `struct.unpack("n", ·)`
produces (two's complement). -/
def toSigned64 (v : Nat) : Int :=
  if v < 2 ^ 63 then (v : Int) else (v : Int) - 2 ^ 64

/-- `_bytes_to_len` (dmmp.py lines 45–51): `struct.unpack("n", b)` when
`b` has exactly 8 bytes; on `struct.error` the fallback reverses the
bytes (little-endian platform) and reads them as hex, i.e. it returns the
little-endian unsigned value of the original bytes — except that an empty
input makes `int("", 16)` raise `ValueError`. -/
def bytes_to_len (bs : List Nat) : Except Err Int :=
  if bs.length = IPC_LEN_SIZE then
    .ok (toSigned64 (leValue bs))
  else if bs.length = 0 then
    .error .valueError
  else
    .ok (Int.ofNat (leValue bs))

theorem leBytes_length (w n : Nat) : (leBytes w n).length = w := by
  induction w generalizing n with
  | zero => rfl
  | succ k ih => simp [leBytes, ih]

theorem leValue_leBytes (w n : Nat) : leValue (leBytes w n) = n % 256 ^ w := by
  induction w generalizing n with
  | zero => simp [leBytes, leValue, Nat.mod_one]
  | succ k ih =>
      have h1 : n % (256 * 256 ^ k) % 256 = n % 256 :=
        Nat.mod_mod_of_dvd n ⟨256 ^ k, rfl⟩
      have h2 : n % (256 * 256 ^ k) / 256 = n / 256 % 256 ^ k :=
        Nat.mod_mul_right_div_self n 256 (256 ^ k)
      have h3 := Nat.div_add_mod (n % (256 * 256 ^ k)) 256
      rw [h1, h2] at h3
      have hp : (256 : Nat) ^ (k + 1) = 256 * 256 ^ k := by
        rw [pow_succ, Nat.mul_comm]
      simp only [leBytes, leValue, ih, hp]
      omega

/-! ## Text: UTF-8 codec and NUL stripping -/

/-- UTF-8 encoding of one scalar value (what `bytearray(cmd, "utf-8")`
produces per character). -/
def utf8EncodeChar (c : Char) : List Nat :=
  let n := c.toNat
  if n < 0x80 then [n]
  else if n < 0x800 then [0xC0 + n / 64, 0x80 + n % 64]
  else if n < 0x10000 then
    [0xE0 + n / 4096, 0x80 + n / 64 % 64, 0x80 + n % 64]
  else
    [0xF0 + n / 262144, 0x80 + n / 4096 % 64, 0x80 + n / 64 % 64, 0x80 + n % 64]

/-- UTF-8 encoding of a string. -/
def utf8Encode (s : String) : List Nat := (s.data.map utf8EncodeChar).flatten

/-- One step of strict UTF-8 decoding with explicit fuel (the fuel is a
termination device only: one unit is spent per decoded scalar and each
scalar consumes at least one byte, so `fuel = length` always suffices and
the out-of-fuel arm is unreachable from `utf8Decode`).  As
`bytes.decode("utf-8")`, it rejects truncated sequences, stray
continuation bytes, overlong forms, surrogates and values above
U+10FFFF. -/
def utf8DecodeFuel : Nat → List Nat → Option (List Char)
  | _, [] => some []
  | 0, _ :: _ => none
  | fuel + 1, b :: bs =>
    if b ≤ 0x7F then
      (utf8DecodeFuel fuel bs).map (Char.ofNat b :: ·)
    else if b ≤ 0xC1 then
      none
    else if b ≤ 0xDF then
      match bs with
      | b2 :: bs2 =>
        if 0x80 ≤ b2 ∧ b2 ≤ 0xBF then
          (utf8DecodeFuel fuel bs2).map
            (Char.ofNat ((b - 0xC0) * 64 + (b2 - 0x80)) :: ·)
        else none
      | [] => none
    else if b ≤ 0xEF then
      match bs with
      | b2 :: b3 :: bs3 =>
        if (if b = 0xE0 then 0xA0 else 0x80) ≤ b2 ∧
            b2 ≤ (if b = 0xED then 0x9F else 0xBF) ∧
            0x80 ≤ b3 ∧ b3 ≤ 0xBF then
          (utf8DecodeFuel fuel bs3).map
            (Char.ofNat ((b - 0xE0) * 4096 + (b2 - 0x80) * 64 + (b3 - 0x80)) :: ·)
        else none
      | _ => none
    else if b ≤ 0xF4 then
      match bs with
      | b2 :: b3 :: b4 :: bs4 =>
        if (if b = 0xF0 then 0x90 else 0x80) ≤ b2 ∧
            b2 ≤ (if b = 0xF4 then 0x8F else 0xBF) ∧
            0x80 ≤ b3 ∧ b3 ≤ 0xBF ∧ 0x80 ≤ b4 ∧ b4 ≤ 0xBF then
          (utf8DecodeFuel fuel bs4).map
            (Char.ofNat ((b - 0xF0) * 262144 + (b2 - 0x80) * 4096 +
              (b3 - 0x80) * 64 + (b4 - 0x80)) :: ·)
        else none
      | _ => none
    else none

/-- Strict UTF-8 decoding, as `bytes.decode("utf-8")`.  `none` models
`UnicodeDecodeError`. -/
def utf8Decode (bs : List Nat) : Option (List Char) :=
  utf8DecodeFuel bs.length bs

/-- `output.strip("\x00")` (dmmp.py line 323): Python `str.strip` removes
the given character from BOTH ends of the string. -/
def stripNulChars (cs : List Char) : List Char :=
  (((cs.dropWhile (· = Char.ofNat 0)).reverse.dropWhile (· = Char.ofNat 0))).reverse

/-! ## JSON values (the black-box `json.loads` output tree) -/

/-- Generic JSON tree, the output of the external `json.loads` primitive.
The consumed fields of the daemon's schema are integers and strings, so
numbers are modelled as `Int`. -/
inductive Json where
  | null
  | bool (b : Bool)
  | num (n : Int)
  | str (s : String)
  | arr (xs : List Json)
  | obj (kvs : List (String × Json))

/-- Hashable Python values that can serve as dict keys among the JSON
scalars (lists/dicts are unhashable and raise `TypeError` when used as a
key). -/
inductive JKey where
  | null
  | bool (b : Bool)
  | num (n : Int)
  | str (s : String)
deriving DecidableEq

/-- View of a JSON value as a dict key; `none` models the `TypeError`
for unhashable keys. -/
def Json.asKey : Json → Option JKey
  | .null => some .null
  | .bool b => some (.bool b)
  | .num n => some (.num n)
  | .str s => some (.str s)
  | .arr _ => none
  | .obj _ => none

/-- Key as a stored JSON value (for the reverse-mapping entries). -/
def JKey.toJson : JKey → Json
  | .null => .null
  | .bool b => .bool b
  | .num n => .num n
  | .str s => .str s

/-- First-match association-list lookup (Python dict keys are unique, so
first match is the dict lookup). -/
def alookup : List (JKey × Json) → JKey → Option Json
  | [], _ => none
  | (k, v) :: rest, q => if k = q then some v else alookup rest q

/-- Python `d.get(key, default)` on a status dict: `TypeError` on an
unhashable key, otherwise total with the default. -/
def dictGet (d : List (JKey × Json)) (key : Json) (default : Json) :
    Except Err Json :=
  match key.asKey with
  | none => .error .typeError
  | some k => .ok ((alookup d k).getD default)

/-- Lookup of a string key in a JSON object (`v[key]` on a dict). -/
def lookupStr : List (String × Json) → String → Option Json
  | [], _ => none
  | (k, v) :: rest, q => if k = q then some v else lookupStr rest q

/-- Python `v[key]` for a string key: `KeyError` when missing,
`TypeError` when `v` is not a dict. -/
def Json.getItem : Json → String → Except Err Json
  | .obj kvs, key =>
      match lookupStr kvs key with
      | some v => .ok v
      | none => .error (.keyError key)
  | _, _ => .error .typeError

/-- Python iteration over `v` when a list is expected (`for x in v`,
list comprehensions); non-arrays are modelled as `TypeError`. -/
def Json.asArr : Json → Except Err (List Json)
  | .arr xs => .ok xs
  | _ => .error .typeError

/-- Python `v == (k : int)` for a JSON value `v`: true for the integer
itself and — a Python quirk — for the boolean of the same truth value
(`False == 0`, `True == 1`); every other JSON value compares unequal to
an int without raising. -/
def pyEqInt (v : Json) (k : Int) : Bool :=
  match v with
  | .num m => m = k
  | .bool b => (if b then (1 : Int) else 0) = k
  | _ => false

/-! ## Domain model: `Path`, `PathGroup`, `MPath` -/

/-- `_add_reverse_mapping(d)` (dmmp.py lines 54–56): for each `(k, v)` of
the original dict add the reverse entry `d[v] = k`.  The snapshot of
`d.items()` is the forward table, the keys added are its (string) values,
and int/str keys never collide, so the resulting dict is the forward
table extended with one reversed entry per item. -/
def add_reverse_mapping (d : List (JKey × Json)) : List (JKey × Json) :=
  d ++ d.filterMap (fun kv => (kv.2.asKey).map (fun k2 => (k2, kv.1.toJson)))

/-- A path as built by `Path.__init__` (dmmp.py lines 63–68): the raw
`dev` value and the status produced by `_status_str_to_enum`.  The source
stores whatever JSON values the record carries, so both fields are
`Json`. -/
structure Path where
  dev : Json
  status : Json

def Path.STATUS_UNKNOWN : Int := 0
def Path.STATUS_DOWN : Int := 2
def Path.STATUS_UP : Int := 3
def Path.STATUS_SHAKY : Int := 4
def Path.STATUS_GHOST : Int := 5
def Path.STATUS_PENDING : Int := 6
def Path.STATUS_TIMEOUT : Int := 7
def Path.STATUS_DELAYED : Int := 9

/-- `Path._STATUS_CONV` after `_add_reverse_mapping` ran on the literal
dict of dmmp.py lines 79–90 (source entry order). -/
def Path.STATUS_CONV : List (JKey × Json) :=
  add_reverse_mapping
    [(.num Path.STATUS_UNKNOWN, .str "undef"),
     (.num Path.STATUS_UP, .str "ready"),
     (.num Path.STATUS_DOWN, .str "faulty"),
     (.num Path.STATUS_SHAKY, .str "shaky"),
     (.num Path.STATUS_GHOST, .str "ghost"),
     (.num Path.STATUS_PENDING, .str "i/o pending"),
     (.num Path.STATUS_TIMEOUT, .str "i/o timeout"),
     (.num Path.STATUS_DELAYED, .str "delayed")]

/-- `Path._status_str_to_enum` (dmmp.py lines 92–93):
`self._STATUS_CONV.get(status_str, self.STATUS_UNKNOWN)`. -/
def Path.status_str_to_enum (status_str : Json) : Except Err Json :=
  dictGet Path.STATUS_CONV status_str (.num Path.STATUS_UNKNOWN)

/-- `Path.__init__` (dmmp.py lines 63–68): `self._dev = path["dev"]`,
then `self._status = self._status_str_to_enum(path["chk_st"])`. -/
def Path.init (path : Json) : Except Err Path := do
  let dev ← path.getItem "dev"
  let chk ← path.getItem "chk_st"
  let status ← Path.status_str_to_enum chk
  .ok { dev := dev, status := status }

/-- `Path.blk_name` property (dmmp.py lines 95–100). -/
def Path.blk_name (p : Path) : Json := p.dev

/-- A path group as built by `PathGroup.__init__` (dmmp.py lines 165–173). -/
structure PathGroup where
  paths : List Path
  group : Json
  pri : Json
  selector : Json
  status : Json

def PathGroup.STATUS_UNKNOWN : Int := 0
def PathGroup.STATUS_ENABLED : Int := 1
def PathGroup.STATUS_DISABLED : Int := 2
def PathGroup.STATUS_ACTIVE : Int := 3

/-- `PathGroup._STATUS_CONV` after `_add_reverse_mapping` (dmmp.py lines
180–187). -/
def PathGroup.STATUS_CONV : List (JKey × Json) :=
  add_reverse_mapping
    [(.num PathGroup.STATUS_UNKNOWN, .str "undef"),
     (.num PathGroup.STATUS_ENABLED, .str "enabled"),
     (.num PathGroup.STATUS_DISABLED, .str "disabled"),
     (.num PathGroup.STATUS_ACTIVE, .str "active")]

/-- `PathGroup._status_str_to_enum` (dmmp.py lines 189–190). -/
def PathGroup.status_str_to_enum (status_str : Json) : Except Err Json :=
  dictGet PathGroup.STATUS_CONV status_str (.num PathGroup.STATUS_UNKNOWN)

/-- `PathGroup.__init__` (dmmp.py lines 165–173): build the paths from
`pg["paths"]`, then read `group`, `pri`, `selector` and map `dm_st`
through the status table. -/
def PathGroup.init (pg : Json) : Except Err PathGroup := do
  let rawPaths ← pg.getItem "paths" >>= Json.asArr
  let paths ← rawPaths.mapM Path.init
  let group ← pg.getItem "group"
  let pri ← pg.getItem "pri"
  let selector ← pg.getItem "selector"
  let dmSt ← pg.getItem "dm_st"
  let status ← PathGroup.status_str_to_enum dmSt
  .ok { paths := paths, group := group, pri := pri,
        selector := selector, status := status }

/-- `PathGroup.id` property (dmmp.py lines 192–198). -/
def PathGroup.id (g : PathGroup) : Json := g.group

/-- `PathGroup.priority` property (dmmp.py lines 230–237). -/
def PathGroup.priority (g : PathGroup) : Json := g.pri

/-- A multipath map as built by `MPath.__init__` (dmmp.py lines 263–270). -/
structure MPath where
  path_groups : List PathGroup
  uuid : Json
  name : Json
  sysfs : Json

/-- `MPath.__init__` (dmmp.py lines 263–270): build the path groups from
`mpath["path_groups"]`, then read `uuid`, `name`, `sysfs`. -/
def MPath.init (mpath : Json) : Except Err MPath := do
  let rawGroups ← mpath.getItem "path_groups" >>= Json.asArr
  let pgs ← rawGroups.mapM PathGroup.init
  let uuid ← mpath.getItem "uuid"
  let name ← mpath.getItem "name"
  let sysfs ← mpath.getItem "sysfs"
  .ok { path_groups := pgs, uuid := uuid, name := name, sysfs := sysfs }

/-- `MPath.wwid` property (dmmp.py lines 272–277). -/
def MPath.wwid (m : MPath) : Json := m.uuid

/-- `MPath.kdev_name` property (dmmp.py lines 303–308). -/
def MPath.kdev_name (m : MPath) : Json := m.sysfs

/-- `MPath.paths` property (dmmp.py lines 293–301): the flattened list of
every group's paths, in group order. -/
def MPath.paths (m : MPath) : List Path :=
  (m.path_groups.map PathGroup.paths).flatten

/-! ## IPC session (`_ipc_exec`) and the query (`mpaths_get`) -/

/-- `_API_VERSION_MAJOR` (dmmp.py line 27). -/
def API_VERSION_MAJOR : Int := 0

/-- `_IPC_ADDR` (dmmp.py line 29): abstract-namespace Unix socket name
(leading NUL). -/
def IPC_ADDR : String := "\x00/org/kernel/linux/storage/multipathd"

/-- The frame built on dmmp.py lines 315–316:
`_len_to_ssize_t_bytes(len(cmd) + 1) + bytearray(cmd, "utf-8") + b"\x00"`.
`len(cmd)` counts characters of the command text. -/
def ipcRequestFrame (cmd : String) : List Nat :=
  len_to_ssize_t_bytes (cmd.length + 1) ++ utf8Encode cmd ++ [0]

/-- Behaviour of the peer and of the OS socket calls for one query: what
`connect` and `sendall` do, and the chunk each successive `recv` call
delivers (`.error` = the call raises, e.g. timeout; an empty chunk = the
peer has closed). -/
structure SocketEnv where
  connectErr : Option Err
  sendErr : Option Err
  chunks : List (Except Err (List Nat))

/-- The `i`-th `recv(n)` of a session: at most `n` bytes of the chunk the
peer delivers for that call (an exhausted chunk list reads as a closed
peer, i.e. no bytes). -/
def SocketEnv.recvAt (env : SocketEnv) (i n : Nat) : Except Err (List Nat) :=
  match env.chunks.getD i (.ok []) with
  | .error e => .error e
  | .ok bs => .ok (bs.take n)

/-- `_ipc_exec(s, cmd)` (dmmp.py lines 314–323): build and send the
frame; `recv` the length header once (empty ⇒ return `""`); decode the
length; `recv` the payload ONCE (no loop), UTF-8-decode it and strip NUL
characters from both ends. -/
def ipc_exec (env : SocketEnv) (cmd : String) : Except Err String :=
  let _buff := ipcRequestFrame cmd
  match env.sendErr with
  | some e => .error e
  | none =>
    match env.recvAt 0 IPC_LEN_SIZE with
    | .error e => .error e
    | .ok buff =>
      if buff = [] then .ok ""
      else
        match bytes_to_len buff with
        | .error e => .error e
        | .ok outputLen =>
          if outputLen < 0 then .error .valueError
          else
            match env.recvAt 1 outputLen.toNat with
            | .error e => .error e
            | .ok payload =>
              match utf8Decode payload with
              | none => .error .unicodeDecodeError
              | some chars => .ok (String.mk (stripNulChars chars))

/-- The post-session part of `mpaths_get` (dmmp.py lines 340–347),
parameterised by the black-box `json.loads`: empty text ⇒ no maps;
otherwise decode, check `major_version` (where `!=` is Python equality
against the int 0), and build one `MPath` per element of `maps`. -/
def processResponse (loads : String → Except Err Json) (jsonStr : String) :
    Except Err (List MPath) :=
  if jsonStr.length = 0 then .ok []
  else
    match loads jsonStr with
    | .error e => .error e
    | .ok allData =>
      match allData.getItem "major_version" with
      | .error e => .error e
      | .ok ver =>
        if ¬ pyEqInt ver API_VERSION_MAJOR then .error .versionMismatch
        else
          match allData.getItem "maps" with
          | .error e => .error e
          | .ok maps =>
            match maps.asArr with
            | .error e => .error e
            | .ok xs => xs.mapM MPath.init

/-- `mpaths_get()` (dmmp.py lines 326–347).  The source has no
`try`/`finally`: `s.close()` (line 339) runs only when `s.connect` and
`_ipc_exec` return normally.  The second component records whether the
socket was closed when control returned; the generator's yields are the
materialised list. -/
def mpaths_get (loads : String → Except Err Json) (env : SocketEnv) :
    Except Err (List MPath) × Bool :=
  match env.connectErr with
  | some e => (.error e, false)
  | none =>
    match ipc_exec env "show maps json" with
    | .error e => (.error e, false)
    | .ok jsonStr => (processResponse loads jsonStr, true)

/-! ## Helper lemmas and shared fixtures -/

/-- A `json.loads` oracle that fails on every input; used where a claim
must hold for any oracle, to instantiate witnesses. -/
def loadsStub : String → Except Err Json := fun _ => .error .jsonDecodeError

theorem bytes_to_len_leBytes8 (n : Nat) (h : n < 2 ^ 63) :
    bytes_to_len (leBytes 8 n) = .ok (Int.ofNat n) := by
  have hlt : n < 256 ^ 8 := lt_of_lt_of_le h (by norm_num)
  have hmod : n % 256 ^ 8 = n := Nat.mod_eq_of_lt hlt
  unfold bytes_to_len toSigned64
  rw [show IPC_LEN_SIZE = 8 from rfl, leBytes_length, if_pos rfl,
      leValue_leBytes, hmod, if_pos h]
  rfl

theorem len_to_ssize_t_bytes_lt (n : Nat) (h : n < 2 ^ 63) :
    len_to_ssize_t_bytes n = leBytes 8 n := by
  unfold len_to_ssize_t_bytes
  rw [if_pos h]
  rfl

theorem leBytes8_ne_nil (n : Nat) : leBytes 8 n ≠ [] := by
  intro hq
  have hlen := leBytes_length 8 n
  rw [hq] at hlen
  simp at hlen

/-! ## Claims -/

/-- C2: for every non-negative length `n` representable in the signed
64-bit native size type, decoding the encoding gives `n` back:
`_bytes_to_len(_len_to_ssize_t_bytes(n)) == n`. -/
theorem c2_length_roundtrip (n : Nat) (h : n < 2 ^ 63) :
    bytes_to_len (len_to_ssize_t_bytes n) = .ok (Int.ofNat n) := by
  rw [len_to_ssize_t_bytes_lt n h]
  exact bytes_to_len_leBytes8 n h

theorem c2_length_roundtrip_witness :
    bytes_to_len (len_to_ssize_t_bytes 3) = .ok (Int.ofNat 3) :=
  c2_length_roundtrip 3 (by norm_num)

/-- C7 counterexample: the claim says every input whose length is not the
native width makes `_bytes_to_len` fail, but the one-byte input `[1]`
is decoded by the hex fallback to the integer 1 with no error. -/
theorem c7_short_input_decoded_cex :
    ([(1 : Nat)].length ≠ IPC_LEN_SIZE) ∧ bytes_to_len [1] = .ok 1 :=
  ⟨by decide, rfl⟩

/-- C7 amended: on input whose length is not the native width,
`_bytes_to_len` raises only for the EMPTY input (`int("", 16)` is a
`ValueError`); any other short or long input is decoded by the hex
fallback to its little-endian unsigned value, an integer, with no
error. -/
theorem c7_short_input_fallback_amended (bs : List Nat)
    (h : bs.length ≠ IPC_LEN_SIZE) :
    bytes_to_len bs =
      if bs.length = 0 then .error .valueError
      else .ok (Int.ofNat (leValue bs)) := by
  unfold bytes_to_len
  rw [if_neg h]

theorem c7_short_input_fallback_amended_witness :
    bytes_to_len [5] =
      if [(5 : Nat)].length = 0 then .error .valueError
      else .ok (Int.ofNat (leValue [5])) :=
  c7_short_input_fallback_amended [5] (by decide)

/-- C8 (claim is right, code is wrong): `_ipc_exec` performs a single
`recv(output_len)` with no loop.  When the peer delivers a response of
declared length 4 in two 2-byte chunks, the session returns the 2-byte
payload `"ab"` as if it were complete instead of looping for the rest or
raising a connection error. -/
theorem c8_single_recv_truncates :
    ipc_exec ⟨none, none, [.ok (len_to_ssize_t_bytes 4), .ok [97, 98]]⟩
        "show maps json" = .ok "ab" ∧
    ("ab").length = 2 ∧ 2 < 4 :=
  ⟨rfl, rfl, by norm_num⟩

/-- C9 (claim is right, code is wrong): `mpaths_get` has no
`try`/`finally`, so `s.close()` is skipped whenever `s.connect` or
`_ipc_exec` raises: on a connect error, a send error and a receive
timeout the query returns with the socket still open (second component
`false`), while the normal empty exchange does close it. -/
theorem c9_socket_left_open_on_errors :
    mpaths_get loadsStub ⟨some .connectionError, none, []⟩ =
      (.error .connectionError, false) ∧
    mpaths_get loadsStub ⟨none, some .connectionError, []⟩ =
      (.error .connectionError, false) ∧
    mpaths_get loadsStub ⟨none, none, [.error .timeoutError]⟩ =
      (.error .timeoutError, false) ∧
    mpaths_get loadsStub ⟨none, none, [.ok []]⟩ = (.ok [], true) :=
  ⟨rfl, rfl, rfl, rfl⟩


theorem utf8Encode_chars_ascii_length (cs : List Char)
    (h : ∀ c ∈ cs, c.toNat ≤ 127) :
    ((cs.map utf8EncodeChar).flatten).length = cs.length := by
  induction cs with
  | nil => rfl
  | cons a l ih =>
      have ha : utf8EncodeChar a = [a.toNat] := by
        unfold utf8EncodeChar
        rw [if_pos (by have := h a (List.mem_cons_self a l); omega)]
      have hl := ih (fun c hc => h c (List.mem_cons_of_mem a hc))
      simp [ha, hl]

theorem utf8DecodeFuel_replicate_nul (n : Nat) :
    utf8DecodeFuel n (List.replicate n 0) =
      some (List.replicate n (Char.ofNat 0)) := by
  induction n with
  | zero => rfl
  | succ k ih => simp [List.replicate_succ, utf8DecodeFuel, ih]

theorem utf8Decode_replicate_nul (n : Nat) :
    utf8Decode (List.replicate n 0) = some (List.replicate n (Char.ofNat 0)) := by
  unfold utf8Decode
  rw [List.length_replicate]
  exact utf8DecodeFuel_replicate_nul n

theorem dropWhile_nul_replicate (n : Nat) :
    (List.replicate n (Char.ofNat 0)).dropWhile (· = Char.ofNat 0) = [] := by
  induction n with
  | zero => rfl
  | succ k ih => simp [List.replicate_succ, List.dropWhile_cons, ih]

theorem stripNulChars_replicate_nul (n : Nat) :
    stripNulChars (List.replicate n (Char.ofNat 0)) = [] := by
  unfold stripNulChars
  rw [dropWhile_nul_replicate]
  rfl

theorem take_replicate_self (n : Nat) :
    (List.replicate n (0 : Nat)).take n = List.replicate n 0 := by
  rw [List.take_replicate, Nat.min_self]

/-- `_ipc_exec` on a session whose declared response length is `n` and
whose payload is `n` NUL bytes returns the empty string: the NUL strip
removes everything. -/
theorem ipc_exec_nul_payload (n : Nat) (hn : n < 2 ^ 63) :
    ipc_exec ⟨none, none, [.ok (len_to_ssize_t_bytes n), .ok (List.replicate n 0)]⟩
      "show maps json" = .ok "" := by
  have h1 : (leBytes 8 n).take IPC_LEN_SIZE = leBytes 8 n := by
    rw [show IPC_LEN_SIZE = (leBytes 8 n).length from (leBytes_length 8 n).symm,
        List.take_length]
  have h4 : ¬ (Int.ofNat n < 0) := by
    show ¬ ((n : Int) < 0)
    omega
  have h5 : (Int.ofNat n).toNat = n := rfl
  simp only [ipc_exec, SocketEnv.recvAt, len_to_ssize_t_bytes_lt n hn,
    List.getD_cons_zero, List.getD_cons_succ, h1, if_neg (leBytes8_ne_nil n),
    bytes_to_len_leBytes8 n hn, if_neg h4, h5,
    take_replicate_self n, utf8Decode_replicate_nul n, stripNulChars_replicate_nul n]

/-- C4: whenever the peer closes before sending a length header (the
first `recv` reads zero bytes), and likewise when the declared payload
length is zero, `mpaths_get` returns the empty map list with no error,
whatever the JSON oracle would do. -/
theorem c4_empty_response_yields_empty (loads : String → Except Err Json)
    (chunks : List (Except Err (List Nat))) :
    (chunks = [.ok []] →
      mpaths_get loads ⟨none, none, chunks⟩ = (.ok [], true)) ∧
    (chunks = [.ok (len_to_ssize_t_bytes 0)] →
      mpaths_get loads ⟨none, none, chunks⟩ = (.ok [], true)) := by
  constructor <;> (intro h; subst h; rfl)

theorem c4_empty_response_yields_empty_witness :
    mpaths_get loadsStub ⟨none, none, [.ok (len_to_ssize_t_bytes 0)]⟩ =
      (.ok [], true) :=
  (c4_empty_response_yields_empty loadsStub [.ok (len_to_ssize_t_bytes 0)]).2 rfl

/-- C10: a response payload consisting entirely of NUL bytes is stripped
(leading NULs as well as trailing ones — the second conjunct shows a
leading NUL being removed) down to the empty text, so `mpaths_get`
yields the empty map list for EVERY JSON oracle — evidence that no JSON
decode of the payload is ever attempted. -/
theorem c10_all_nul_payload_empty (loads : String → Except Err Json)
    (n : Nat) (hn : n < 2 ^ 63) :
    mpaths_get loads
        ⟨none, none, [.ok (len_to_ssize_t_bytes n), .ok (List.replicate n 0)]⟩ =
      (.ok [], true) ∧
    stripNulChars [Char.ofNat 0, 'a'] = ['a'] := by
  refine ⟨?_, rfl⟩
  simp only [mpaths_get, ipc_exec_nul_payload n hn]
  rfl

theorem c10_all_nul_payload_empty_witness :
    mpaths_get loadsStub
        ⟨none, none, [.ok (len_to_ssize_t_bytes 3), .ok (List.replicate 3 0)]⟩ =
      (.ok [], true) ∧
    stripNulChars [Char.ofNat 0, 'a'] = ['a'] :=
  c10_all_nul_payload_empty loadsStub 3 (by norm_num)

/-- C3: a decoded response whose top-level `major_version` is an integer
other than the supported version 0 makes the query fail with the
version-mismatch error (the source raises at exactly this point — via
the undefined name `exception`, so CPython turns it into `NameError`)
and build no `MPath`: the result is an error for ANY shape of the rest
of the document, so no map data is ever parsed. -/
theorem c3_version_mismatch_rejected (loads : String → Except Err Json)
    (s : String) (v : Json) (m : Int) (hs : s.length ≠ 0) (hl : loads s = .ok v)
    (hv : v.getItem "major_version" = .ok (.num m))
    (hm : m ≠ API_VERSION_MAJOR) :
    processResponse loads s = .error .versionMismatch := by
  simp only [processResponse, if_neg hs, hl, hv]
  simp [pyEqInt, hm]

theorem c3_version_mismatch_rejected_witness :
    processResponse
      (fun _ => .ok (.obj [("major_version", .num 1)])) "x" =
      .error .versionMismatch :=
  c3_version_mismatch_rejected (fun _ => .ok (.obj [("major_version", .num 1)]))
    "x" (.obj [("major_version", .num 1)]) 1 (by decide) rfl rfl (by decide)

/-- C5 counterexample: the frame's length header encodes
`len(cmd) + 1` where `len` counts CHARACTERS, not UTF-8 bytes.  For the
one-character command `"é"` (2 UTF-8 bytes) the code's frame carries a
header encoding 2, not the 3 the claim's byte-length formula demands. -/
theorem c5_frame_char_count_cex :
    ipcRequestFrame "é" ≠
      len_to_ssize_t_bytes ((utf8Encode "é").length + 1) ++ utf8Encode "é" ++ [0] := by
  decide

/-- C5 amended: for every ASCII command (each character ≤ 127, which
covers the only command the source ever sends), character count and
UTF-8 byte count coincide, so the sent frame is exactly the header
encoding (UTF-8 byte length + 1), the UTF-8 command bytes, and one
trailing NUL.  In particular the command `"show maps json"` has 14
characters (not the 15 the original claim asserts), so its frame is the
header encoding 15, the 14 command bytes, and one NUL byte. -/
theorem c5_frame_ascii_amended (cmd : String)
    (h : ∀ c ∈ cmd.data, c.toNat ≤ 127) :
    (ipcRequestFrame cmd =
      len_to_ssize_t_bytes ((utf8Encode cmd).length + 1) ++ utf8Encode cmd ++ [0] ∧
    (utf8Encode cmd).length = cmd.length) ∧
    ("show maps json").length = 14 ∧
    (utf8Encode "show maps json").length = 14 ∧
    ipcRequestFrame "show maps json" =
      len_to_ssize_t_bytes 15 ++ utf8Encode "show maps json" ++ [0] := by
  have hlen : (utf8Encode cmd).length = cmd.length :=
    utf8Encode_chars_ascii_length cmd.data h
  refine ⟨⟨?_, hlen⟩, by decide, by decide, by decide⟩
  rw [show utf8Encode cmd = (cmd.data.map utf8EncodeChar).flatten from rfl] at hlen ⊢
  rw [hlen]
  rfl

theorem c5_frame_ascii_amended_witness :
    (ipcRequestFrame "show maps json" =
      len_to_ssize_t_bytes ((utf8Encode "show maps json").length + 1) ++
        utf8Encode "show maps json" ++ [0] ∧
    (utf8Encode "show maps json").length = "show maps json".length) ∧
    ("show maps json").length = 14 ∧
    (utf8Encode "show maps json").length = 14 ∧
    ipcRequestFrame "show maps json" =
      len_to_ssize_t_bytes 15 ++ utf8Encode "show maps json" ++ [0] :=
  c5_frame_ascii_amended "show maps json" (by decide)

/-- C6: any status string outside the RESPECTIVE conversion table maps
to the `STATUS_UNKNOWN` code 0 of that enumeration — with no error
(`dict.get` with a default).  The two implications are independent: a
string may be absent from one table while present in the other. -/
theorem c6_unknown_status_to_unknown (s : String) :
    (s ∉ (["undef", "ready", "faulty", "shaky", "ghost",
           "i/o pending", "i/o timeout", "delayed"] : List String) →
      Path.status_str_to_enum (.str s) = .ok (.num Path.STATUS_UNKNOWN)) ∧
    (s ∉ (["undef", "enabled", "disabled", "active"] : List String) →
      PathGroup.status_str_to_enum (.str s) =
        .ok (.num PathGroup.STATUS_UNKNOWN)) := by
  constructor
  · intro hp
    simp only [List.mem_cons, List.not_mem_nil, or_false, not_or] at hp
    obtain ⟨hp1, hp2, hp3, hp4, hp5, hp6, hp7, hp8⟩ := hp
    simp [Path.status_str_to_enum, dictGet, Json.asKey, Path.STATUS_CONV,
          add_reverse_mapping, alookup, JKey.toJson, List.filterMap,
          Ne.symm hp1, Ne.symm hp2, Ne.symm hp3, Ne.symm hp4, Ne.symm hp5,
          Ne.symm hp6, Ne.symm hp7, Ne.symm hp8]
  · intro hg
    simp only [List.mem_cons, List.not_mem_nil, or_false, not_or] at hg
    obtain ⟨hg1, hg2, hg3, hg4⟩ := hg
    simp [PathGroup.status_str_to_enum, dictGet, Json.asKey, PathGroup.STATUS_CONV,
          add_reverse_mapping, alookup, JKey.toJson, List.filterMap,
          Ne.symm hg1, Ne.symm hg2, Ne.symm hg3, Ne.symm hg4]

theorem c6_unknown_status_to_unknown_witness :
    Path.status_str_to_enum (.str "active") = .ok (.num Path.STATUS_UNKNOWN) ∧
    PathGroup.status_str_to_enum (.str "ready") =
      .ok (.num PathGroup.STATUS_UNKNOWN) :=
  ⟨(c6_unknown_status_to_unknown "active").1 (by decide),
   (c6_unknown_status_to_unknown "ready").2 (by decide)⟩


/-- The response payload text of the end-to-end scenario. -/
def samplePayloadText : String :=
  "\x7b\"major_version\":0,\"maps\":[\x7b\"uuid\":\"wwid1\",\"name\":\"mpatha\",\"sysfs\":\"dm-0\",\"path_groups\":[\x7b\"group\":1,\"pri\":10,\"selector\":\"service-time 0\",\"dm_st\":\"active\",\"paths\":[\x7b\"dev\":\"sda\",\"chk_st\":\"ready\"\x7d,\x7b\"dev\":\"sdb\",\"chk_st\":\"ghost\"\x7d]\x7d]\x7d]\x7d"

/-- The JSON tree of `samplePayloadText` (what the black-box `json.loads`
produces for it). -/
def samplePayload : Json :=
  .obj [("major_version", .num 0),
        ("maps", .arr [
          .obj [("uuid", .str "wwid1"), ("name", .str "mpatha"),
                ("sysfs", .str "dm-0"),
                ("path_groups", .arr [
                  .obj [("group", .num 1), ("pri", .num 10),
                        ("selector", .str "service-time 0"),
                        ("dm_st", .str "active"),
                        ("paths", .arr [
                          .obj [("dev", .str "sda"), ("chk_st", .str "ready")],
                          .obj [("dev", .str "sdb"), ("chk_st", .str "ghost")]])]])]])]

/-- The map the end-to-end scenario is expected to build. -/
def sampleMPath : MPath :=
  { path_groups := [
      { paths := [{ dev := .str "sda", status := .num Path.STATUS_UP },
                  { dev := .str "sdb", status := .num Path.STATUS_GHOST }],
        group := .num 1, pri := .num 10,
        selector := .str "service-time 0",
        status := .num PathGroup.STATUS_ACTIVE }],
    uuid := .str "wwid1", name := .str "mpatha", sysfs := .str "dm-0" }

/-- A JSON oracle that decodes exactly the sample payload. -/
def sampleLoads : String → Except Err Json :=
  fun s => if s = samplePayloadText then .ok samplePayload else .error .jsonDecodeError

set_option maxRecDepth 10000 in
/-- C1: on the specific sample payload, the query yields exactly one
`MPath` — wwid `"wwid1"`, name `"mpatha"`, kernel device `"dm-0"` — with
a single `PathGroup` of id 1, priority 10 and status `STATUS_ACTIVE`
holding the paths `("sda", STATUS_UP)` and `("sdb", STATUS_GHOST)` in
that order, and the flattened `MPath.paths` view returns those two paths
in the same order. -/
theorem c1_sample_query_end_to_end (loads : String → Except Err Json)
    (h : loads samplePayloadText = .ok samplePayload) :
    processResponse loads samplePayloadText = .ok [sampleMPath] ∧
    sampleMPath.wwid = .str "wwid1" ∧
    sampleMPath.name = .str "mpatha" ∧
    sampleMPath.kdev_name = .str "dm-0" ∧
    sampleMPath.path_groups.map PathGroup.id = [.num 1] ∧
    sampleMPath.path_groups.map PathGroup.priority = [.num 10] ∧
    sampleMPath.path_groups.map PathGroup.status =
      [.num PathGroup.STATUS_ACTIVE] ∧
    sampleMPath.path_groups.map PathGroup.paths =
      [[{ dev := .str "sda", status := .num Path.STATUS_UP },
        { dev := .str "sdb", status := .num Path.STATUS_GHOST }]] ∧
    sampleMPath.paths =
      [{ dev := .str "sda", status := .num Path.STATUS_UP },
       { dev := .str "sdb", status := .num Path.STATUS_GHOST }] := by
  refine ⟨?_, rfl, rfl, rfl, rfl, rfl, rfl, rfl, rfl⟩
  unfold processResponse
  rw [if_neg (by show ¬ samplePayloadText.length = 0; decide), h]
  rfl

set_option maxRecDepth 10000 in
theorem c1_sample_query_end_to_end_witness :
    processResponse sampleLoads samplePayloadText = .ok [sampleMPath] ∧
    sampleMPath.wwid = .str "wwid1" ∧
    sampleMPath.name = .str "mpatha" ∧
    sampleMPath.kdev_name = .str "dm-0" ∧
    sampleMPath.path_groups.map PathGroup.id = [.num 1] ∧
    sampleMPath.path_groups.map PathGroup.priority = [.num 10] ∧
    sampleMPath.path_groups.map PathGroup.status =
      [.num PathGroup.STATUS_ACTIVE] ∧
    sampleMPath.path_groups.map PathGroup.paths =
      [[{ dev := .str "sda", status := .num Path.STATUS_UP },
        { dev := .str "sdb", status := .num Path.STATUS_GHOST }]] ∧
    sampleMPath.paths =
      [{ dev := .str "sda", status := .num Path.STATUS_UP },
       { dev := .str "sdb", status := .num Path.STATUS_GHOST }] :=
  c1_sample_query_end_to_end sampleLoads (by
    unfold sampleLoads
    rw [if_pos rfl])

end Dmmp
